import Mathlib

/-!
Verification of the paperwork-backend filesystem layer (`paperwork_backend/fs.py`)
against its natural-language specification.

Shallow embedding conventions:
* Python `str` values handled by the URI safety codec are modelled as their
  UTF-8 byte sequences, i.e. `List Nat` with every element `< 256`.
  `urllib.parse.quote` encodes characters to UTF-8 bytes and then
  percent-encodes each byte, so the byte-level model is exact.
* `Gio.File` handles are modelled by the content of the resource they point
  to (`Option (List Nat)`: `none` means the resource does not exist).
* Stream objects (`GioFileAdapter`) are modelled as explicit state records;
  backend handle objects (`gfd`, `gin`, `gout`) are modelled as small
  numeric identifiers so that Python `is` identity can be expressed.
* Python exceptions are modelled by an explicit error type `FsError`;
  `GLib.GError` raised by the backend is `FsError.gError`, and the
  `except GLib.GError ... raise IOError` translation at the facade and
  adapter boundaries maps it to `FsError.ioError`.
-/

/-- Error kinds raised by the filesystem layer.  `ioError` is Python's
`IOError`, `gError` an uncaught `GLib.GError`, `assertionError` an
`assert` failure, `nameError` a reference to an unbound variable,
`osError` an `OSError` raised locally, `exception` a plain `Exception`,
`decodeError` a `UnicodeDecodeError` from `bytes.decode("utf-8")`. -/
inductive FsError where
  | ioError : FsError
  | gError : FsError
  | assertionError : FsError
  | nameError : FsError
  | osError : String → FsError
  | exception : String → FsError
  | decodeError : FsError
deriving DecidableEq

/-- Bytes kept verbatim by `urllib.parse.quote` with its default
`safe='/'`: ASCII letters, digits, and `_ . - ~ /`. -/
def isUnreservedByte (b : Nat) : Bool :=
  (65 ≤ b && b ≤ 90) || (97 ≤ b && b ≤ 122) || (48 ≤ b && b ≤ 57) ||
  (b == 95) || (b == 46) || (b == 45) || (b == 126) || (b == 47)

/-- Upper-case hexadecimal digit (as an ASCII byte) of a value `< 16`,
as produced by `urllib.parse.quote`. -/
def hexUpper (n : Nat) : Nat :=
  if n < 10 then 48 + n else 55 + n

/-- ASCII bytes accepted as hexadecimal digits by `urllib.parse.unquote`
(either case). -/
def isHexDigitByte (b : Nat) : Bool :=
  (48 ≤ b && b ≤ 57) || (65 ≤ b && b ≤ 70) || (97 ≤ b && b ≤ 102)

/-- Value of a hexadecimal digit byte. -/
def hexVal (b : Nat) : Nat :=
  if b ≤ 57 then b - 48 else if b ≤ 70 then b - 55 else b - 87

/-- `urllib.parse.quote(s)` at the byte level: unreserved bytes are kept,
every other byte `b` becomes `%XY` with `XY` the upper-case hex of `b`. -/
def quote : List Nat → List Nat
  | [] => []
  | b :: rest =>
    if isUnreservedByte b then b :: quote rest
    else 37 :: hexUpper (b / 16) :: hexUpper (b % 16) :: quote rest

/-- `urllib.parse.unquote(s)` at the byte level: every `%` followed by two
hexadecimal digits is decoded to the corresponding byte; a `%` not followed
by two hexadecimal digits is kept verbatim. -/
def unquote : List Nat → List Nat
  | [] => []
  | 37 :: h1 :: h2 :: rest2 =>
    if isHexDigitByte h1 && isHexDigitByte h2 then
      (hexVal h1 * 16 + hexVal h2) :: unquote rest2
    else 37 :: unquote (h1 :: h2 :: rest2)
  | b :: rest => b :: unquote rest
termination_by l => l.length

/-- Python's substring test `needle in hay` for byte strings. -/
def containsSeq (needle : List Nat) : List Nat → Bool
  | [] => needle.isEmpty
  | b :: rest => needle.isPrefixOf (b :: rest) || containsSeq needle rest

/-- The bytes of the scheme separator `"://"`. -/
def schemeSep : List Nat := [58, 47, 47]

/-- The bytes of the local-file scheme prefix `"file://"`. -/
def fileScheme : List Nat := [102, 105, 108, 101, 58, 47, 47]

/-- `GioFileSystem.safe`: a URI already containing `"://"` is returned
unchanged; otherwise the input is assumed to be a local path,
percent-quoted and prefixed with `"file://"`. -/
def GioFileSystem.safe (uri : List Nat) : List Nat :=
  if containsSeq schemeSep uri then uri else fileScheme ++ quote uri

/-- `GioFileSystem.unsafe` (named `fromSafe` here because `unsafe` is a
reserved word in Lean): an input without `"://"` is returned unchanged; an
input with a scheme other than `file` raises
`Exception("TARGET URI SHOULD BE A LOCAL FILE")`; otherwise the
`"file://"` prefix is stripped and the remainder percent-unquoted. -/
def GioFileSystem.fromSafe (uri : List Nat) : Except FsError (List Nat) :=
  if containsSeq schemeSep uri = false then Except.ok uri
  else if fileScheme.isPrefixOf uri = false then
    Except.error (FsError.exception "TARGET URI SHOULD BE A LOCAL FILE")
  else Except.ok (unquote (uri.drop fileScheme.length))

theorem isHexDigitByte_hexUpper : ∀ x, x < 16 → isHexDigitByte (hexUpper x) = true := by
  decide

theorem hexVal_hexUpper : ∀ x, x < 16 → hexVal (hexUpper x) = x := by
  decide

theorem hexUpper_ne_37 : ∀ x, x < 16 → hexUpper x ≠ 37 := by
  decide

theorem unquote_quote (p : List Nat) (hb : ∀ b ∈ p, b < 256) :
    unquote (quote p) = p := by
  induction p with
  | nil => simp [quote, unquote]
  | cons b rest ih =>
    have hb0 : b < 256 := hb b (List.mem_cons_self b rest)
    have hbr : ∀ x ∈ rest, x < 256 := fun x hx => hb x (List.mem_cons_of_mem b hx)
    by_cases hu : isUnreservedByte b = true
    · have hb37 : b ≠ 37 := by
        intro h; subst h; exact absurd hu (by decide)
      rw [show quote (b :: rest) = b :: quote rest from by simp [quote, hu]]
      rw [show unquote (b :: quote rest) = b :: unquote (quote rest) from by
        simp [unquote, hb37]]
      rw [ih hbr]
    · have hdiv : b / 16 < 16 := by omega
      have hmod : b % 16 < 16 := by omega
      have h1 := isHexDigitByte_hexUpper (b / 16) hdiv
      have h2 := isHexDigitByte_hexUpper (b % 16) hmod
      have hval : hexVal (hexUpper (b / 16)) * 16 + hexVal (hexUpper (b % 16)) = b := by
        rw [hexVal_hexUpper (b / 16) hdiv, hexVal_hexUpper (b % 16) hmod]
        omega
      rw [show quote (b :: rest) =
          37 :: hexUpper (b / 16) :: hexUpper (b % 16) :: quote rest from by
        simp [quote, hu]]
      rw [show unquote (37 :: hexUpper (b / 16) :: hexUpper (b % 16) :: quote rest) =
          (hexVal (hexUpper (b / 16)) * 16 + hexVal (hexUpper (b % 16))) :: unquote (quote rest)
        from by simp [unquote, h1, h2]]
      rw [hval, ih hbr]

theorem containsSeq_fileScheme_append (l : List Nat) :
    containsSeq schemeSep (fileScheme ++ l) = true := by
  simp [containsSeq, schemeSep, fileScheme, List.isPrefixOf]

theorem fileScheme_isPrefixOf_append (l : List Nat) :
    fileScheme.isPrefixOf (fileScheme ++ l) = true := by
  simp [fileScheme, List.isPrefixOf]

/-- C2: for every local path `p` (no `"://"` scheme separator in it), encoding
it with `GioFileSystem.safe` and decoding the result with
`GioFileSystem.unsafe` (here `GioFileSystem.fromSafe`) round-trips exactly:
`unsafe(safe(p)) == p`.  Paths are modelled as UTF-8 byte strings, so every
byte is `< 256`. -/
theorem spec_C2_safe_roundtrip (p : List Nat) (hb : ∀ b ∈ p, b < 256)
    (hs : containsSeq schemeSep p = false) :
    GioFileSystem.fromSafe (GioFileSystem.safe p) = Except.ok p := by
  have hsafe : GioFileSystem.safe p = fileScheme ++ quote p := by
    simp [GioFileSystem.safe, hs]
  rw [hsafe]
  rw [GioFileSystem.fromSafe]
  rw [containsSeq_fileScheme_append, fileScheme_isPrefixOf_append]
  simp only [Bool.true_eq_false, if_false]
  rw [show (fileScheme ++ quote p).drop fileScheme.length = quote p from
    List.drop_left fileScheme (quote p)]
  rw [unquote_quote p hb]

/-- Witness for C2 at the concrete local path `"/a b"` (bytes
`[47, 97, 32, 98]`; the space needs percent-escaping). -/
theorem spec_C2_safe_roundtrip_witness :
    GioFileSystem.fromSafe (GioFileSystem.safe [47, 97, 32, 98]) =
      Except.ok [47, 97, 32, 98] :=
  spec_C2_safe_roundtrip [47, 97, 32, 98] (by decide) (by decide)

/-- State of a `GioFileAdapter` stream (`fs.py`, class `GioFileAdapter`).
`content` is the byte content visible through the acquired backend
handle(s); `pos` the shared cursor of `gfd`/`gin`/`gout`; `size` the cached
size computed in `__init__`; `mode` the mode string as a character list.
The handle fields hold small identifiers (`none` = Python `None`): in read
mode `gin` and `gfd` are the same object (same identifier), in write and
append modes `gfd`, `gin` and `gout` are three distinct objects. -/
structure GioFileAdapter where
  content : List Nat
  pos : Nat
  size : Nat
  mode : List Char
  gin : Option Nat
  gout : Option Nat
  gfd : Option Nat
deriving DecidableEq

/-- Trace of the backend interactions performed by
`GioFileAdapter.__init__`: whether `gfile.query_info` ran (the eager size
stat) and whether `gfile.create_readwrite` ran (the target was created). -/
structure InitLog where
  queried : Bool
  created : Bool
deriving DecidableEq

/-- `GioFileAdapter.__init__(gfile, mode)`.  `file` is the state of the
resource `gfile` points at (`none` = absent).  Mirrors the source order:
1. if `'w' in mode` the cached size is 0, otherwise `query_info` is issued
   and a `GLib.GError` (absent resource) is re-raised as `IOError`;
2. if `'r' in mode`, `gfile.read()` acquires one handle serving as both
   `gin` and `gfd` (a `GLib.GError` here propagates uncaught);
   `elif 'w' in mode or 'a' in mode`, an existing resource is opened
   read-write, an absent one is created read-write, and separate input and
   output streams are taken from the handle;
3. if `'a' in mode`, seek to `SEEK_END`. -/
def gioFileAdapterInit (file : Option (List Nat)) (mode : List Char) :
    Except FsError (GioFileAdapter × InitLog) :=
  let sq : Except FsError (Nat × Bool) :=
    if 'w' ∈ mode then Except.ok (0, false)
    else
      match file with
      | some c => Except.ok (c.length, true)
      | none => Except.error FsError.ioError
  match sq with
  | Except.error e => Except.error e
  | Except.ok (size, queried) =>
    if 'r' ∈ mode then
      match file with
      | none => Except.error FsError.gError
      | some c =>
        let st0 : GioFileAdapter := ⟨c, 0, size, mode, some 0, none, some 0⟩
        let st := if 'a' ∈ mode then { st0 with pos := st0.content.length } else st0
        Except.ok (st, ⟨queried, false⟩)
    else if 'w' ∈ mode ∨ 'a' ∈ mode then
      let cc : List Nat × Bool :=
        match file with
        | some c => (c, false)
        | none => ([], true)
      let st0 : GioFileAdapter := ⟨cc.1, 0, size, mode, some 1, some 2, some 0⟩
      let st := if 'a' ∈ mode then { st0 with pos := st0.content.length } else st0
      Except.ok (st, ⟨queried, cc.2⟩)
    else
      Except.ok (⟨[], 0, size, mode, none, none, none⟩, ⟨queried, false⟩)

/-- `GioFileAdapter.readable`: constantly `True` in the source. -/
def GioFileAdapter.readable (_ : GioFileAdapter) : Bool :=
  true

/-- `GioFileAdapter.writable`: `'w' in self.mode`. -/
def GioFileAdapter.writable (st : GioFileAdapter) : Bool :=
  decide ('w' ∈ st.mode)

/-- `GioFileAdapter.read(size=-1)`: raises `OSError` when not readable;
a negative requested size is replaced by the cached `self.size`; then
`self.gin.read_bytes(size)` returns up to `size` bytes from the current
cursor and advances the cursor. -/
def GioFileAdapter.read (st : GioFileAdapter) (n : Int) :
    Except FsError (List Nat × GioFileAdapter) :=
  if st.readable = false then Except.error (FsError.osError "File is not readable")
  else
    let k : Nat := if n < 0 then st.size else n.toNat
    let bytes := (st.content.drop st.pos).take k
    Except.ok (bytes, { st with pos := st.pos + bytes.length })

/-- `GioFileAdapter.readall()`: `self.read(-1)`. -/
def GioFileAdapter.readall (st : GioFileAdapter) :
    Except FsError (List Nat × GioFileAdapter) :=
  st.read (-1)

/-- Python `sequence.split(sep)` for a one-element separator (the byte
layer splits on the single byte `b"\n"`; the text layer splits on
`os.linesep`, which is the single character `"\n"` on the POSIX platforms
this program targets). -/
def pySplit [DecidableEq α] (sep : α) : List α → List (List α)
  | [] => [[]]
  | c :: rest =>
    if c = sep then [] :: pySplit sep rest
    else
      match pySplit sep rest with
      | [] => [[c]]
      | l :: ls => (c :: l) :: ls

/-- `GioFileAdapter.readlines`: split the full content read by
`readall()` on the newline byte and re-append `b"\n"` to every chunk. -/
def GioFileAdapter.readlines (st : GioFileAdapter) :
    Except FsError (List (List Nat)) :=
  match st.readall with
  | Except.error e => Except.error e
  | Except.ok (bs, _) => Except.ok ((pySplit 10 bs).map (fun x => x ++ [10]))

/-- `GioFileAdapter.close`: returns the identifiers of the handles closed,
in source order: `gin` if set, then `gout` if set, then `gfd` only when
`self.gfd is not self.gin`. -/
def GioFileAdapter.close (st : GioFileAdapter) : List Nat :=
  (match st.gin with | some g => [g] | none => []) ++
  (match st.gout with | some g => [g] | none => []) ++
  (if st.gfd = st.gin then []
   else match st.gfd with | some g => [g] | none => [])

/-- Continuation byte test for UTF-8 decoding. -/
def utf8Cont (b : Nat) : Bool :=
  128 ≤ b && b < 192

/-- Strict UTF-8 decoding of a byte sequence, as performed by
`bytes.decode("utf-8")`: `none` models a `UnicodeDecodeError`. -/
def utf8Decode : List Nat → Option (List Char)
  | [] => some []
  | b :: rest =>
    if b < 128 then (utf8Decode rest).map (fun s => Char.ofNat b :: s)
    else if 194 ≤ b && b < 224 then
      match rest with
      | b1 :: r =>
        if utf8Cont b1 then
          (utf8Decode r).map (fun s => Char.ofNat ((b - 192) * 64 + (b1 - 128)) :: s)
        else none
      | _ => none
    else if 224 ≤ b && b < 240 then
      match rest with
      | b1 :: b2 :: r =>
        if utf8Cont b1 && utf8Cont b2 then
          let cp := (b - 224) * 4096 + (b1 - 128) * 64 + (b2 - 128)
          if 2048 ≤ cp && !(55296 ≤ cp && cp < 57344) then
            (utf8Decode r).map (fun s => Char.ofNat cp :: s)
          else none
        else none
      | _ => none
    else if 240 ≤ b && b < 245 then
      match rest with
      | b1 :: b2 :: b3 :: r =>
        if utf8Cont b1 && utf8Cont b2 && utf8Cont b3 then
          let cp := (b - 240) * 262144 + (b1 - 128) * 4096 + (b2 - 128) * 64 + (b3 - 128)
          if 65536 ≤ cp && cp ≤ 1114111 then
            (utf8Decode r).map (fun s => Char.ofNat cp :: s)
          else none
        else none
      | _ => none
    else none

/-- `os.linesep` on the POSIX platforms this program runs on: `"\n"`. -/
def osLinesep : Char := '\n'

/-- `GioUTF8FileAdapter.readall`: read everything from the wrapped raw
adapter and decode as UTF-8. -/
def GioUTF8FileAdapter.readall (raw : GioFileAdapter) :
    Except FsError (List Char × GioFileAdapter) :=
  match raw.readall with
  | Except.error e => Except.error e
  | Except.ok (bs, st) =>
    match utf8Decode bs with
    | none => Except.error FsError.decodeError
    | some s => Except.ok (s, st)

/-- `GioUTF8FileAdapter.readlines`: split the decoded text on `os.linesep`,
re-append `"\n"` to each segment, and drop the last segment when it equals
`"\n"` (the trailing artifact). -/
def GioUTF8FileAdapter.readlines (raw : GioFileAdapter) :
    Except FsError (List (List Char)) :=
  match GioUTF8FileAdapter.readall raw with
  | Except.error e => Except.error e
  | Except.ok (txt, _) =>
    let lines := (pySplit osLinesep txt).map (fun x => x ++ ['\n'])
    if lines.getLast? = some ['\n'] then Except.ok lines.dropLast
    else Except.ok lines

/-- Result of `GioFileSystem.open`: either the raw byte adapter (mode
contains `'b'`) or the UTF-8 wrapper around it. -/
inductive OpenResult where
  | raw : GioFileAdapter → OpenResult
  | utf8 : GioFileAdapter → OpenResult
deriving DecidableEq

/-- `GioFileSystem.open(uri, mode)`: construct a `GioFileAdapter` on the
resource; wrap it in a `GioUTF8FileAdapter` unless `'b' in mode`; a
`GLib.GError` escaping the construction is re-raised as `IOError`. -/
def GioFileSystem.openFile (file : Option (List Nat)) (mode : List Char) :
    Except FsError OpenResult :=
  match gioFileAdapterInit file mode with
  | Except.error FsError.gError => Except.error FsError.ioError
  | Except.error e => Except.error e
  | Except.ok (st, _) =>
    Except.ok (if 'b' ∈ mode then OpenResult.raw st else OpenResult.utf8 st)

/-- `GioFileSystem.rename(old_url, new_url)`: `assert(not old.equal(new))`
fails with `AssertionError` (uncaught: the surrounding handler only catches
`GLib.GError`) when both URIs resolve to the identical resource; otherwise
`old.move(new, ...)` is delegated to the backend.  The second component is
the list of backend `move` invocations, as `(source, destination)` pairs. -/
def GioFileSystem.rename (old_url new_url : String) :
    Except FsError Unit × List (String × String) :=
  if old_url = new_url then (Except.error FsError.assertionError, [])
  else (Except.ok (), [(old_url, new_url)])

/-- `GioFileSystem.copy(old_url, new_url)`: the body resolves both handles
from a variable `url` that is not among the function's local bindings
(`old_url`, `new_url`), so evaluating it raises `NameError` (uncaught: the
surrounding handler only catches `GLib.GError`).  On the `some` branch the
result would be the backend `copy` invocations, as
`(source, destination)` pairs. -/
def GioFileSystem.copy (old_url new_url : String) :
    Except FsError (List (String × String)) :=
  let localVars : List (String × String) :=
    [("old_url", old_url), ("new_url", new_url)]
  match localVars.lookup "url" with
  | none => Except.error FsError.nameError
  | some u => Except.ok [(u, u)]

/-- C1 (code defect): for every pair of URIs, `GioFileSystem.copy` raises
`NameError` — its body resolves both endpoints from the unbound variable
`url` instead of using `old_url` and `new_url` — so it never resolves the
two URIs it was given independently and never reaches the backend copy
primitive. -/
theorem spec_C1_copy_unbound_name :
    ∀ old_url new_url : String,
      GioFileSystem.copy old_url new_url = Except.error FsError.nameError :=
  fun _ _ => rfl

/-- C4: `rename(u, u)` (and any call whose two URIs resolve to the identical
resource) fails with `AssertionError` and performs no backend `move`; for
distinct resources the call delegates to the backend `move` with exactly
the two URIs it was given. -/
theorem spec_C4_rename_self_assert :
    (∀ u : String,
      GioFileSystem.rename u u = (Except.error FsError.assertionError, []))
  ∧ (∀ old_url new_url : String, old_url ≠ new_url →
      GioFileSystem.rename old_url new_url =
        (Except.ok (), [(old_url, new_url)])) := by
  constructor
  · intro u
    simp [GioFileSystem.rename]
  · intro old_url new_url h
    simp [GioFileSystem.rename, h]

/-- Witness for C4 at the distinct URIs `file:///a` and `file:///b`. -/
theorem spec_C4_rename_self_assert_witness :
    GioFileSystem.rename "file:///a" "file:///b" =
      (Except.ok (), [("file:///a", "file:///b")]) :=
  spec_C4_rename_self_assert.2 "file:///a" "file:///b" (by decide)

/-- C5: on content `b"a\nb\n"` the byte layer's `readlines()` yields
`[b"a\n", b"b\n", b"\n"]` (including the trailing artifact), while the text
layer's `readlines()` on the same content yields `["a\n", "b\n"]` (the
trailing all-newline artifact is removed).  Both streams are opened in read
mode through the adapter constructor. -/
theorem spec_C5_readlines_quirk :
    (match gioFileAdapterInit (some [97, 10, 98, 10]) ['r', 'b'] with
     | Except.error e => Except.error e
     | Except.ok (st, _) => st.readlines) =
      Except.ok [[97, 10], [98, 10], [10]]
  ∧ (match gioFileAdapterInit (some [97, 10, 98, 10]) ['r'] with
     | Except.error e => Except.error e
     | Except.ok (st, _) => GioUTF8FileAdapter.readlines st) =
      Except.ok [['a', '\n'], ['b', '\n']] :=
  ⟨rfl, rfl⟩

/-- C9: `close()` releases the handles in source order.  In read mode the
input handle IS the owning handle (`gfd is gin`), so the single handle is
released exactly once (`[0]`); in write mode the input handle, the output
handle, and the distinct owning read-write handle are all released
(`[1, 2, 0]`). -/
theorem spec_C9_close_handles :
    (∀ c, (gioFileAdapterInit (some c) ['r', 'b']).map
        (fun p => p.1.close) = Except.ok [0])
  ∧ (∀ file, (gioFileAdapterInit file ['w', 'b']).map
        (fun p => p.1.close) = Except.ok [1, 2, 0]) :=
  ⟨fun _ => rfl, fun file => by cases file <;> rfl⟩

/-- C3 (code defect on the append branch): write mode on an absent target
creates it and succeeds with the cursor at 0; append mode on an existing
target succeeds with the cursor at end-of-data; read mode on an absent
target fails with `IOError`; but append mode on an ABSENT target also
fails with `IOError` — the eager size query is skipped only when `'w'` is
in the mode, so `'a'` on an absent resource dies in `query_info` before
ever reaching the `create_readwrite` branch. -/
theorem spec_C3_open_modes :
    (gioFileAdapterInit none ['w', 'b']).map
        (fun p => (p.2.created, p.1.pos)) = Except.ok (true, 0)
  ∧ (∀ c, (gioFileAdapterInit (some c) ['a', 'b']).map
        (fun p => (p.1.pos, p.2.created)) = Except.ok (c.length, false))
  ∧ gioFileAdapterInit none ['r', 'b'] = Except.error FsError.ioError
  ∧ gioFileAdapterInit none ['a', 'b'] = Except.error FsError.ioError :=
  ⟨rfl, fun _ => rfl, rfl, rfl⟩

/-- C6: opening an absent resource in read mode (no `'w'` flag) fails with
`IOError` raised from the eager size query; no stream is returned. -/
theorem spec_C6_open_read_absent (mode : List Char)
    (hw : 'w' ∉ mode) (_hr : 'r' ∈ mode) :
    GioFileSystem.openFile none mode = Except.error FsError.ioError := by
  unfold GioFileSystem.openFile gioFileAdapterInit
  simp [hw]

/-- Witness for C6 at mode `"rb"`. -/
theorem spec_C6_open_read_absent_witness :
    GioFileSystem.openFile none ['r', 'b'] = Except.error FsError.ioError :=
  spec_C6_open_read_absent ['r', 'b'] (by decide) (by decide)

/-- C7: `read(n)` with negative `n` requests exactly the cached size
recorded at construction (`self.size`), behaving identically to
`read(self.size)`, and returns the bytes present at the cursor up to that
cached size — the adapter consults no current resource size. -/
theorem spec_C7_read_negative (st : GioFileAdapter) (n : Int) (h : n < 0) :
    st.read n = Except.ok ((st.content.drop st.pos).take st.size,
      { st with pos := st.pos + ((st.content.drop st.pos).take st.size).length })
  ∧ st.read n = st.read (st.size : Int) := by
  have h2 : ¬((st.size : Int) < 0) := by omega
  constructor
  · simp [GioFileAdapter.read, GioFileAdapter.readable, h]
  · simp [GioFileAdapter.read, GioFileAdapter.readable, h, h2]

/-- Witness for C7: a read-mode stream on `[1, 2, 3]` with cached size 3;
`read(-1)` returns the three bytes and coincides with `read(3)`. -/
theorem spec_C7_read_negative_witness :
    GioFileAdapter.read ⟨[1, 2, 3], 0, 3, ['r', 'b'], some 0, none, some 0⟩ (-1) =
      Except.ok ([1, 2, 3], ⟨[1, 2, 3], 3, 3, ['r', 'b'], some 0, none, some 0⟩)
  ∧ GioFileAdapter.read ⟨[1, 2, 3], 0, 3, ['r', 'b'], some 0, none, some 0⟩ (-1) =
      GioFileAdapter.read ⟨[1, 2, 3], 0, 3, ['r', 'b'], some 0, none, some 0⟩
        ((3 : Nat) : Int) := by
  have h := spec_C7_read_negative
    ⟨[1, 2, 3], 0, 3, ['r', 'b'], some 0, none, some 0⟩ (-1) (by decide)
  exact ⟨by simpa using h.1, h.2⟩

/-- C8: every stream reports `readable()` as `True` whatever its mode; a
stream built by the constructor reports `writable()` as `True` exactly when
the mode string contains `'w'`; in particular a pure-append-mode stream
(mode `"ab"`) reports `writable()` as `False`. -/
theorem spec_C8_readable_writable :
    (∀ st : GioFileAdapter, st.readable = true)
  ∧ (∀ file mode, (gioFileAdapterInit file mode).map (fun p => p.1.writable) =
      (gioFileAdapterInit file mode).map (fun _ => decide ('w' ∈ mode)))
  ∧ (∀ c, (gioFileAdapterInit (some c) ['a', 'b']).map
      (fun p => p.1.writable) = Except.ok false) := by
  refine ⟨fun _ => rfl, ?_, fun _ => rfl⟩
  intro file mode
  cases file <;> by_cases hw : 'w' ∈ mode <;> by_cases hr : 'r' ∈ mode <;>
    by_cases ha : 'a' ∈ mode <;>
    simp [gioFileAdapterInit, GioFileAdapter.writable, Except.map, hw, hr, ha]

/-- C10: opening an EXISTING resource with any mode containing `'w'`
initializes the cached size to 0 without querying the backend, so an
immediate `read(-1)` returns the empty byte string even though the
resource has content. -/
theorem spec_C10_write_mode_size_zero (content : List Nat) (mode : List Char)
    (hw : 'w' ∈ mode) :
    (gioFileAdapterInit (some content) mode).map
        (fun p => (p.1.size, p.2.queried)) = Except.ok (0, false)
  ∧ (gioFileAdapterInit (some content) mode).map
        (fun p => (p.1.read (-1)).map Prod.fst) = Except.ok (Except.ok []) := by
  by_cases hr : 'r' ∈ mode <;> by_cases ha : 'a' ∈ mode <;>
    constructor <;>
    simp [gioFileAdapterInit, GioFileAdapter.read, GioFileAdapter.readable,
      Except.map, hw, hr, ha]

/-- Witness for C10: opening existing content `[5, 6, 7]` in mode `"wb"`
yields cached size 0, no backend size query, and an empty `read(-1)`. -/
theorem spec_C10_write_mode_size_zero_witness :
    (gioFileAdapterInit (some [5, 6, 7]) ['w', 'b']).map
        (fun p => (p.1.size, p.2.queried)) = Except.ok (0, false)
  ∧ (gioFileAdapterInit (some [5, 6, 7]) ['w', 'b']).map
        (fun p => (p.1.read (-1)).map Prod.fst) = Except.ok (Except.ok []) :=
  spec_C10_write_mode_size_zero [5, 6, 7] ['w', 'b'] (by decide)
